import Mathlib

/-
Shallow embedding of src/measuring-go-applications/main.go: the user-lookup
and password-verification request path with its telemetry.

Conventions:
  * Go byte slices are List Nat (each element a byte value 0..255).
  * Go errors are modelled by explicit error types; a Go function returning
    (T, error) becomes Except E T, and a bare error becomes Option E
    (none = nil).
  * The bcrypt comparison golang.org/x/crypto/bcrypt.CompareHashAndPassword
    is embedded structurally: its hash-parsing phase (newFromHash, which
    produces ErrHashTooShort, InvalidHashPrefixError, HashVersionTooNewError
    and the cost errors) is translated from the bcrypt source; the phase that
    runs after a successful parse (salt handling plus the adaptive Blowfish
    computation and the constant-time comparison) is abstracted as a boolean
    oracle parameter. The handler observes the returned error only through
    err == nil and errors.Is(err, ErrHashTooShort), and every post-parse
    outcome other than nil (a mismatch, or bcrypt's internal base64 salt
    error) is observationally identical there, so the oracle loses nothing
    the handler can see.
-/

deriving instance DecidableEq for Except

namespace MeasuringGo

/-! ## bcrypt (golang.org/x/crypto/bcrypt), structural part -/

inductive BcryptError where
  | mismatchedHashAndPassword
  | hashTooShort
  | hashVersionTooNewError (v : Nat)
  | invalidHashPrefixError (b : Nat)
  | invalidCostError (c : Int)
  | invalidCostAtoiError
deriving DecidableEq, Repr

/-- bcrypt's minHashSize constant. -/
def minHashSize : Nat := 59

/-- bcrypt's majorVersion constant, the byte value of the character 2. -/
def majorVersion : Nat := 50

/-- bcrypt hashed.decodeVersion: checks the leading marker byte (36, the
dollar sign) and the major version byte, and returns (major, minor, n) where
n is how many bytes the version header used. -/
def decodeVersion (sbytes : List Nat) : Except BcryptError (Nat × Nat × Nat) :=
  if sbytes.getD 0 0 ≠ 36 then
    Except.error (BcryptError.invalidHashPrefixError (sbytes.getD 0 0))
  else if sbytes.getD 1 0 > majorVersion then
    Except.error (BcryptError.hashVersionTooNewError (sbytes.getD 1 0))
  else if sbytes.getD 2 0 ≠ 36 then
    Except.ok (sbytes.getD 1 0, sbytes.getD 2 0, 4)
  else
    Except.ok (sbytes.getD 1 0, 0, 3)

def digitVal (b : Nat) : Option Nat :=
  if 48 ≤ b ∧ b ≤ 57 then some (b - 48) else none

/-- Go strconv.Atoi applied to the 2-byte string b0 b1 (as bcrypt's
decodeCost does): two digits, or an optional sign followed by one digit. -/
def atoi2 (b0 b1 : Nat) : Option Int :=
  match digitVal b0, digitVal b1 with
  | some d0, some d1 => some ((10 * d0 + d1 : Nat) : Int)
  | _, _ =>
    if b0 = 43 then (digitVal b1).map (fun d => (d : Int))
    else if b0 = 45 then (digitVal b1).map (fun d => -(d : Int))
    else none

def minCost : Int := 4

def maxCost : Int := 31

/-- bcrypt checkCost. -/
def checkCost (cost : Int) : Option BcryptError :=
  if cost < minCost ∨ cost > maxCost then some (BcryptError.invalidCostError cost) else none

/-- bcrypt hashed.decodeCost on the bytes following the version header. -/
def decodeCost (sbytes : List Nat) : Except BcryptError Int :=
  match atoi2 (sbytes.getD 0 0) (sbytes.getD 1 0) with
  | none => Except.error BcryptError.invalidCostAtoiError
  | some cost =>
    match checkCost cost with
    | some e => Except.error e
    | none => Except.ok cost

structure Hashed where
  major : Nat
  minor : Nat
  cost : Int
deriving DecidableEq, Repr

/-- bcrypt newFromHash: the structural validation of a stored hash. -/
def newFromHash (hashedSecret : List Nat) : Except BcryptError Hashed :=
  if hashedSecret.length < minHashSize then Except.error BcryptError.hashTooShort
  else
    match decodeVersion hashedSecret with
    | Except.error e => Except.error e
    | Except.ok (major, minor, n) =>
      match decodeCost (hashedSecret.drop n) with
      | Except.error e => Except.error e
      | Except.ok cost => Except.ok { major := major, minor := minor, cost := cost }

/-- bcrypt CompareHashAndPassword. The oracle `hashMatches` stands for the
post-parse phase: salt decoding, the adaptive hash of the submitted password
and the constant-time comparison against the stored digest (see the header
comment). Returns none for nil (a match). -/
def compareHashAndPassword (hashMatches : List Nat → List Nat → Bool)
    (hashedPassword password : List Nat) : Option BcryptError :=
  match newFromHash hashedPassword with
  | Except.error e => some e
  | Except.ok _ =>
    if hashMatches hashedPassword password then none
    else some BcryptError.mismatchedHashAndPassword

/-! ## Byte-level helpers: UTF-8 and hex -/

/-- UTF-8 encoding of one character, as Go's []byte(string) produces. -/
def utf8EncodeCharNat (c : Char) : List Nat :=
  let n := c.toNat
  if n < 128 then [n]
  else if n < 2048 then [192 + n / 64, 128 + n % 64]
  else if n < 65536 then [224 + n / 4096, 128 + (n / 64) % 64, 128 + n % 64]
  else [240 + n / 262144, 128 + (n / 4096) % 64, 128 + (n / 64) % 64, 128 + n % 64]

/-- Go []byte(s): the UTF-8 bytes of a string. -/
def utf8Bytes (s : String) : List Nat := (s.toList.map utf8EncodeCharNat).flatten

def hexDigitVal (b : Nat) : Option Nat :=
  if 48 ≤ b ∧ b ≤ 57 then some (b - 48)
  else if 97 ≤ b ∧ b ≤ 102 then some (b - 87)
  else if 65 ≤ b ∧ b ≤ 70 then some (b - 55)
  else none

/-- Go encoding/hex DecodeString on the byte values of the input: none on an
odd-length input (hex.ErrLength) or any non-hex byte (hex.InvalidByteError),
which the caller treats alike (a non-nil error). -/
def hexDecode : List Nat → Option (List Nat)
  | [] => some []
  | [_] => none
  | b0 :: b1 :: rest =>
    match hexDigitVal b0, hexDigitVal b1, hexDecode rest with
    | some hi, some lo, some bs => some ((16 * hi + lo) :: bs)
    | _, _, _ => none

/-- Go strconv.Atoi, digits part: neg is whether a minus sign was seen, ds
the remaining byte values. Rejects an empty digit string, any non-digit
byte, and values outside the 64-bit int range (strconv.ErrRange). -/
def goAtoiCore (neg : Bool) (ds : List Nat) : Option Int :=
  if ds = [] then none
  else if ds.all (fun b => decide (48 ≤ b ∧ b ≤ 57)) then
    let n : Nat := ds.foldl (fun a b => 10 * a + (b - 48)) 0
    if neg then (if n ≤ 9223372036854775808 then some (-(n : Int)) else none)
    else (if n ≤ 9223372036854775807 then some ((n : Int)) else none)
  else none

/-- Go strconv.Atoi on a string: optional sign, then digits. -/
def goAtoi (s : String) : Option Int :=
  match s.toList.map Char.toNat with
  | 43 :: rest => goAtoiCore false rest
  | 45 :: rest => goAtoiCore true rest
  | bs => goAtoiCore false bs

/-! ## The user store and getUserFromDB -/

/-- The User struct of main.go. ID, Name and Email carry json tags; the
password field is unexported (lower-case) so encoding/json never emits it.
none models a nil password slice (the column was NULL). -/
structure User where
  ID : Int
  Name : String
  Email : String
  password : Option (List Nat)
deriving DecidableEq, Repr

/-- One row of the users table. passwordHex models the password column as
sql.NullString: none is NULL (Valid = false). -/
structure UserRow where
  id : Int
  name : String
  email : String
  passwordHex : Option String
deriving DecidableEq, Repr

/-- The database handle: its rows, and whether the store access itself fails
(timeout, connection error, ...), in which case QueryRowContext.Scan returns
a driver error instead of consulting the rows. -/
structure DB where
  rows : List UserRow
  fail : Bool
deriving DecidableEq, Repr

/-- The distinct error values getUserFromDB can return: the strconv.Atoi
error, sql.ErrNoRows, any other driver or infrastructure error, and the
encoding/hex decode errors. -/
inductive FetchError where
  | atoiError
  | noRows
  | storeFailure
  | hexDecodeError
deriving DecidableEq, Repr

/-- getUserFromDB of main.go: parse the identifier with strconv.Atoi, run
SELECT id, name, email, password FROM users WHERE id equals it, and if the
password column is non-NULL hex-decode it into the unexported field. -/
def getUserFromDB (db : DB) (userID : String) : Except FetchError User :=
  match goAtoi userID with
  | none => Except.error FetchError.atoiError
  | some uid =>
    if db.fail then Except.error FetchError.storeFailure
    else
      match db.rows.find? (fun r => r.id == uid) with
      | none => Except.error FetchError.noRows
      | some row =>
        match row.passwordHex with
        | none => Except.ok { ID := row.id, Name := row.name, Email := row.email, password := none }
        | some hx =>
          match hexDecode (hx.toList.map Char.toNat) with
          | none => Except.error FetchError.hexDecodeError
          | some bytes =>
            Except.ok { ID := row.id, Name := row.name, Email := row.email, password := some bytes }

/-! ## Telemetry state and HTTP responses -/

inductive AttrVal where
  | boolVal (b : Bool)
  | strVal (s : String)
deriving DecidableEq, Repr

/-- The process-wide telemetry instruments the handlers touch: every
observation recorded on the user.auth.password_check.latency histogram (as
its attribute list), the user.auth.password_check.errors counter, and the
names of the spans the handler itself starts. -/
structure Telemetry where
  hashLatencyObs : List (List (String × AttrVal))
  hashErrorCount : Nat
  spansStarted : List String
deriving DecidableEq, Repr

def telemetry0 : Telemetry :=
  { hashLatencyObs := [], hashErrorCount := 0, spansStarted := [] }

structure HTTPResponse where
  status : Nat
  body : String
deriving DecidableEq, Repr

/-- net/http http.Error: writes the message followed by a newline. -/
def httpError (msg : String) (code : Nat) : HTTPResponse :=
  { status := code, body := msg ++ "\n" }

/-- The body json.NewEncoder(w).Encode writes for struct\x7b Status string \x7d
with value OK. -/
def okBody : String := "\x7b\"Status\":\"OK\"\x7d\n"

/-! ## JSON encoding of User (encoding/json) -/

def hexDigitChar (n : Nat) : String :=
  if n < 10 then String.singleton (Char.ofNat (48 + n)) else String.singleton (Char.ofNat (87 + n))

/-- encoding/json string escaping (escapeHTML on, the Encoder default):
quote and backslash, the HTML characters, the named control escapes, other
control characters as unicode escapes, and the line separators. -/
def jsonEscapeChar (c : Char) : String :=
  let n := c.toNat
  if n = 34 then "\\\""
  else if n = 92 then "\\\\"
  else if n = 60 then "\\u003c"
  else if n = 62 then "\\u003e"
  else if n = 38 then "\\u0026"
  else if n = 10 then "\\n"
  else if n = 13 then "\\r"
  else if n = 9 then "\\t"
  else if n < 32 then "\\u00" ++ hexDigitChar (n / 16) ++ hexDigitChar (n % 16)
  else if n = 8232 then "\\u2028"
  else if n = 8233 then "\\u2029"
  else String.singleton c

def jsonQuote (s : String) : String :=
  "\"" ++ String.join (s.toList.map jsonEscapeChar) ++ "\""

/-- The JSON object encoding/json produces from the given exported field
values, followed by the Encoder's newline. -/
def jsonUserBody (id : Int) (name email : String) : String :=
  "\x7b\"id\":" ++ toString id ++ ",\"name\":" ++ jsonQuote name
    ++ ",\"email\":" ++ jsonQuote email ++ "\x7d\n"

/-- json.NewEncoder(w).Encode(user): the three exported, json-tagged fields
in struct order; the unexported password field is skipped by encoding/json. -/
def jsonEncodeUser (u : User) : String := jsonUserBody u.ID u.Name u.Email

/-! ## The HTTP handlers -/

/-- The form fields of a POST /user/auth request as r.FormValue sees them: a
missing field reads as the empty string. -/
structure SigninRequest where
  id : String
  password : String
deriving DecidableEq, Repr

/-- The query parameter of a GET /user request; missing reads as empty. -/
structure GetUserRequest where
  id : String
deriving DecidableEq, Repr

/-- signinHandler of main.go. Returns the response written and the telemetry
state after the request. hashMatches is the bcrypt oracle (see
compareHashAndPassword). The latency value itself is wall-clock time and is
not modelled; each Record call is kept as its attribute list. -/
def signinHandler (hashMatches : List Nat → List Nat → Bool) (db : DB)
    (req : SigninRequest) (t : Telemetry) : HTTPResponse × Telemetry :=
  if req.id = "" then (httpError "Missing user ID" 400, t)
  else
    match getUserFromDB db req.id with
    | Except.error _ => (httpError "Failed to get user" 500, t)
    | Except.ok user =>
      let t1 : Telemetry := { t with spansStarted := t.spansStarted ++ ["password_check"] }
      let err := compareHashAndPassword hashMatches (user.password.getD []) (utf8Bytes req.password)
      let t2 : Telemetry :=
        { t1 with hashLatencyObs := t1.hashLatencyObs ++ [[("correct", AttrVal.boolVal err.isNone)]] }
      let t3 : Telemetry :=
        if err = some BcryptError.hashTooShort then
          { t2 with hashErrorCount := t2.hashErrorCount + 1 }
        else t2
      if err.isNone then ({ status := 200, body := okBody }, t3)
      else (httpError "Not authenticated" 401, t3)

/-- getUserHandler of main.go. -/
def getUserHandler (db : DB) (req : GetUserRequest) : HTTPResponse :=
  if req.id = "" then httpError "Missing user ID" 400
  else
    match getUserFromDB db req.id with
    | Except.error _ => httpError "Failed to get user" 500
    | Except.ok user => { status := 200, body := jsonEncodeUser user }

/-! ## Spec-side classifier -/

/-- From the spec's words: the stored hash is structurally invalid for the
verification primitive (wrong length, wrong leading marker byte, or
work-factor encoding) exactly when bcrypt's hash parser rejects it. -/
def specMalformedHash (hash : List Nat) : Bool :=
  match newFromHash hash with
  | Except.error _ => true
  | Except.ok _ => false

/-! ## Theorems -/

/-- Shape of signinHandler once the lookup has returned a record: the
password_check span is started, exactly one latency observation tagged with
the boolean comparison result is appended, the error counter is incremented
exactly when the comparison returned ErrHashTooShort, and the response is
200 on a match and 401 otherwise. -/
theorem signinHandler_ok (hashMatches : List Nat → List Nat → Bool) (db : DB)
    (req : SigninRequest) (t : Telemetry) (user : User)
    (hid : ¬ req.id = "") (hfetch : getUserFromDB db req.id = Except.ok user) :
    signinHandler hashMatches db req t =
      ((if (compareHashAndPassword hashMatches (user.password.getD []) (utf8Bytes req.password)).isNone
          then { status := 200, body := okBody }
          else httpError "Not authenticated" 401),
       { spansStarted := t.spansStarted ++ ["password_check"],
         hashLatencyObs := t.hashLatencyObs ++
           [[("correct", AttrVal.boolVal (compareHashAndPassword hashMatches (user.password.getD []) (utf8Bytes req.password)).isNone)]],
         hashErrorCount :=
           if compareHashAndPassword hashMatches (user.password.getD []) (utf8Bytes req.password)
               = some BcryptError.hashTooShort
             then t.hashErrorCount + 1 else t.hashErrorCount }) := by
  simp only [signinHandler, if_neg hid, hfetch]
  split_ifs <;> rfl

/-- C1, as stated, fails on the code: a stored hash of 60 bytes, each the
value 65, is structurally invalid for bcrypt (wrong leading marker byte —
specMalformedHash holds), yet the handler leaves the error counter at 0,
because it increments only on ErrHashTooShort and this hash is long enough.
The row stores the hex encoding of those 60 bytes; the lookup succeeds. -/
theorem c1_counterexample :
    specMalformedHash (List.replicate 60 65) = true
    ∧ getUserFromDB
        { rows := [{ id := 1, name := "a", email := "a@x",
                     passwordHex := some (String.join (List.replicate 60 "41")) }], fail := false } "1"
        = Except.ok { ID := 1, Name := "a", Email := "a@x", password := some (List.replicate 60 65) }
    ∧ (signinHandler (fun _ _ => false)
        { rows := [{ id := 1, name := "a", email := "a@x",
                     passwordHex := some (String.join (List.replicate 60 "41")) }], fail := false }
        { id := "1", password := "pw" } telemetry0).2.hashErrorCount = 0 := by
  refine ⟨by decide, by decide, by decide⟩

/-- C1 (amended): once the lookup has returned a record, the error counter
is incremented exactly once if and only if the bcrypt comparison reports
ErrHashTooShort (the effective stored hash, absent treated as nil, is
shorter than 59 bytes); in particular a well-formed-hash mismatch never
increments it, but neither do the other malformed-hash shapes (wrong
leading marker, version or cost encoding). -/
theorem c1_error_counter (hashMatches : List Nat → List Nat → Bool) (db : DB)
    (req : SigninRequest) (t : Telemetry) (user : User)
    (hid : ¬ req.id = "") (hfetch : getUserFromDB db req.id = Except.ok user) :
    ((signinHandler hashMatches db req t).2.hashErrorCount = t.hashErrorCount + 1
      ↔ compareHashAndPassword hashMatches (user.password.getD []) (utf8Bytes req.password)
          = some BcryptError.hashTooShort)
    ∧ (compareHashAndPassword hashMatches (user.password.getD []) (utf8Bytes req.password)
          = some BcryptError.mismatchedHashAndPassword →
        (signinHandler hashMatches db req t).2.hashErrorCount = t.hashErrorCount) := by
  rw [signinHandler_ok hashMatches db req t user hid hfetch]
  constructor
  · by_cases h : compareHashAndPassword hashMatches (user.password.getD []) (utf8Bytes req.password)
        = some BcryptError.hashTooShort
    · simp [h]
    · simp only [if_neg h]
      constructor
      · intro hcount
        exact absurd hcount (by omega)
      · intro hcontr
        exact absurd hcontr h
  · intro hmis
    rw [hmis]
    simp

/-- C1 witness: concrete application of c1_error_counter with a stored
two-byte hash (hex 3030); the comparison reports ErrHashTooShort and the
counter goes from 0 to 1. -/
theorem c1_error_counter_witness :
    (signinHandler (fun _ _ => false)
        { rows := [{ id := 1, name := "a", email := "a@x", passwordHex := some "3030" }], fail := false }
        { id := "1", password := "pw" } telemetry0).2.hashErrorCount = 0 + 1 :=
  (c1_error_counter (fun _ _ => false)
    { rows := [{ id := 1, name := "a", email := "a@x", passwordHex := some "3030" }], fail := false }
    { id := "1", password := "pw" } telemetry0
    { ID := 1, Name := "a", Email := "a@x", password := some [48, 48] }
    (by decide) (by decide)).1.mpr (by decide)

/-- C2 (confirmed): every call that reaches the password comparison —
whatever its outcome: match, mismatch, malformed hash, absent hash —
appends exactly one observation to the latency histogram, and that
observation is tagged with the boolean match result. -/
theorem c2_latency_once (hashMatches : List Nat → List Nat → Bool) (db : DB)
    (req : SigninRequest) (t : Telemetry) (user : User)
    (hid : ¬ req.id = "") (hfetch : getUserFromDB db req.id = Except.ok user) :
    (signinHandler hashMatches db req t).2.hashLatencyObs =
      t.hashLatencyObs ++
        [[("correct", AttrVal.boolVal (compareHashAndPassword hashMatches (user.password.getD []) (utf8Bytes req.password)).isNone)]] := by
  rw [signinHandler_ok hashMatches db req t user hid hfetch]

/-- C2 witness: a concrete call (absent stored hash) records exactly one
observation tagged correct = false. -/
theorem c2_latency_once_witness :
    (signinHandler (fun _ _ => false)
        { rows := [{ id := 1, name := "a", email := "a@x", passwordHex := none }], fail := false }
        { id := "1", password := "pw" } telemetry0).2.hashLatencyObs =
      telemetry0.hashLatencyObs ++
        [[("correct", AttrVal.boolVal (compareHashAndPassword (fun _ _ => false) ((none : Option (List Nat)).getD []) (utf8Bytes "pw")).isNone)]] :=
  c2_latency_once (fun _ _ => false)
    { rows := [{ id := 1, name := "a", email := "a@x", passwordHex := none }], fail := false }
    { id := "1", password := "pw" } telemetry0
    { ID := 1, Name := "a", Email := "a@x", password := none }
    (by decide) (by decide)

/-- C3, as stated, fails on the code: for an identifier absent from the
store the fetch does return the distinct not-found error (sql.ErrNoRows),
but the caller answers HTTP 500, not 404 — getUserHandler maps every fetch
error alike. -/
theorem c3_counterexample :
    getUserFromDB { rows := [], fail := false } "7" = Except.error FetchError.noRows
    ∧ (getUserHandler { rows := [], fail := false } { id := "7" }).status = 500
    ∧ ¬ (getUserHandler { rows := [], fail := false } { id := "7" }).status = 404 := by
  refine ⟨by decide, by decide, by decide⟩

/-- C3 (amended): for every identifier absent from a reachable store, fetch
returns the not-found error sql.ErrNoRows, never the store-failure error,
and the two are distinct values; but both handlers map every fetch error,
not-found included, to HTTP 500 — a 404 is never produced. -/
theorem c3_not_found_mapping (db : DB) (s : String) (n : Int)
    (hdb : db.fail = false) (hp : goAtoi s = some n)
    (habs : db.rows.find? (fun r => r.id == n) = none) :
    getUserFromDB db s = Except.error FetchError.noRows
    ∧ FetchError.noRows ≠ FetchError.storeFailure
    ∧ getUserHandler db { id := s } = httpError "Failed to get user" 500 := by
  have hs : ¬ s = "" := by
    intro h
    rw [h] at hp
    have hnone : goAtoi "" = none := rfl
    rw [hnone] at hp
    exact Option.noConfusion hp
  have hfetch : getUserFromDB db s = Except.error FetchError.noRows := by
    simp [getUserFromDB, hp, hdb, habs]
  exact ⟨hfetch, by decide, by simp [getUserHandler, hs, hfetch]⟩

/-- C3 witness: concrete application of c3_not_found_mapping on an empty
store and identifier 7. -/
theorem c3_not_found_mapping_witness :
    getUserFromDB { rows := [], fail := false } "7" = Except.error FetchError.noRows
    ∧ FetchError.noRows ≠ FetchError.storeFailure
    ∧ getUserHandler { rows := [], fail := false } { id := "7" } = httpError "Failed to get user" 500 :=
  c3_not_found_mapping { rows := [], fail := false } "7" 7 (by decide) (by decide) (by decide)

/-- C4, as stated, fails on the code: a non-integer identifier in the
signin path is answered with HTTP 500 (the generic fetch-error mapping),
not with 400. -/
theorem c4_counterexample :
    (signinHandler (fun _ _ => false) { rows := [], fail := false }
        { id := "abc", password := "p" } telemetry0).1 = httpError "Failed to get user" 500
    ∧ ¬ (signinHandler (fun _ _ => false) { rows := [], fail := false }
        { id := "abc", password := "p" } telemetry0).1.status = 400 := by
  refine ⟨by decide, by decide⟩

/-- C4 (amended): a present but non-parseable identifier is rejected before
any store access — the result is independent of the store contents and of
whether the store is reachable, so no query is issued, and the telemetry is
untouched — but the request is answered HTTP 500, not 400; 400 is produced
only for a missing (empty) id. -/
theorem c4_unparseable_id (hashMatches : List Nat → List Nat → Bool)
    (db db' : DB) (req : SigninRequest) (t : Telemetry)
    (hid : ¬ req.id = "") (hp : goAtoi req.id = none) :
    signinHandler hashMatches db req t = signinHandler hashMatches db' req t
    ∧ (signinHandler hashMatches db req t).1 = httpError "Failed to get user" 500
    ∧ (signinHandler hashMatches db req t).2 = t := by
  have hf : ∀ d : DB, getUserFromDB d req.id = Except.error FetchError.atoiError := by
    intro d
    simp [getUserFromDB, hp]
  refine ⟨?_, ?_, ?_⟩ <;> simp [signinHandler, hid, hf]

/-- C4 witness: concrete application of c4_unparseable_id with identifier
abc, one failing and one reachable store. -/
theorem c4_unparseable_id_witness :
    signinHandler (fun _ _ => false) { rows := [], fail := false } { id := "abc", password := "p" } telemetry0
      = signinHandler (fun _ _ => false) { rows := [], fail := true } { id := "abc", password := "p" } telemetry0
    ∧ (signinHandler (fun _ _ => false) { rows := [], fail := false } { id := "abc", password := "p" } telemetry0).1
        = httpError "Failed to get user" 500
    ∧ (signinHandler (fun _ _ => false) { rows := [], fail := false } { id := "abc", password := "p" } telemetry0).2
        = telemetry0 :=
  c4_unparseable_id (fun _ _ => false) { rows := [], fail := false } { rows := [], fail := true }
    { id := "abc", password := "p" } telemetry0 (by decide) (by decide)

/-- C5, as stated, fails on the code in one respect: with an absent stored
hash the handler does return matched = false (401), but the case is not
treated as a plain mismatch — bcrypt reports ErrHashTooShort on the nil
hash, which is a different error value than a mismatch, and the error
counter is incremented (a plain mismatch never increments it). -/
theorem c5_counterexample :
    compareHashAndPassword (fun _ _ => false) [] (utf8Bytes "anything")
        = some BcryptError.hashTooShort
    ∧ some BcryptError.hashTooShort ≠ some BcryptError.mismatchedHashAndPassword
    ∧ (signinHandler (fun _ _ => false)
        { rows := [{ id := 1, name := "alice", email := "a@x", passwordHex := none }], fail := false }
        { id := "1", password := "anything" } telemetry0).1.status = 401
    ∧ (signinHandler (fun _ _ => false)
        { rows := [{ id := 1, name := "alice", email := "a@x", passwordHex := none }], fail := false }
        { id := "1", password := "anything" } telemetry0).2.hashErrorCount = 1 := by
  refine ⟨by decide, by decide, by decide, by decide⟩

/-- C5 (amended): for every record with an absent credential hash and every
submitted plaintext, the comparison never succeeds and the handler always
answers 401 (matched = false, and being a total function it cannot panic);
but the case is classified as ErrHashTooShort, incrementing the error
counter, rather than as a plain mismatch. -/
theorem c5_absent_hash (hashMatches : List Nat → List Nat → Bool) (db : DB)
    (req : SigninRequest) (t : Telemetry) (user : User)
    (hid : ¬ req.id = "") (hfetch : getUserFromDB db req.id = Except.ok user)
    (habsent : user.password = none) :
    compareHashAndPassword hashMatches [] (utf8Bytes req.password) = some BcryptError.hashTooShort
    ∧ (signinHandler hashMatches db req t).1 = httpError "Not authenticated" 401
    ∧ (signinHandler hashMatches db req t).2.hashErrorCount = t.hashErrorCount + 1 := by
  have hcomp : compareHashAndPassword hashMatches [] (utf8Bytes req.password)
      = some BcryptError.hashTooShort := rfl
  refine ⟨hcomp, ?_, ?_⟩ <;>
    rw [signinHandler_ok hashMatches db req t user hid hfetch] <;>
    simp [habsent, hcomp]

/-- C5 witness: concrete application of c5_absent_hash to a record whose
password column is NULL. -/
theorem c5_absent_hash_witness :
    compareHashAndPassword (fun _ _ => false) [] (utf8Bytes "anything") = some BcryptError.hashTooShort
    ∧ (signinHandler (fun _ _ => false)
        { rows := [{ id := 1, name := "alice", email := "a@x", passwordHex := none }], fail := false }
        { id := "1", password := "anything" } telemetry0).1 = httpError "Not authenticated" 401
    ∧ (signinHandler (fun _ _ => false)
        { rows := [{ id := 1, name := "alice", email := "a@x", passwordHex := none }], fail := false }
        { id := "1", password := "anything" } telemetry0).2.hashErrorCount = telemetry0.hashErrorCount + 1 :=
  c5_absent_hash (fun _ _ => false)
    { rows := [{ id := 1, name := "alice", email := "a@x", passwordHex := none }], fail := false }
    { id := "1", password := "anything" } telemetry0
    { ID := 1, Name := "alice", Email := "a@x", password := none }
    (by decide) (by decide) rfl

/-- C6 (confirmed): the full response mapping of POST /user/auth — 400 with
Missing user ID when the id field is empty, 500 on any fetch error, and
once a record is fetched, 200 with the \x7b"Status":"OK"\x7d body exactly
when the password comparison succeeds, else the single 401 Not
authenticated response; mismatch and malformed hash land in the same else
branch, so the client sees one indistinguishable 401. -/
theorem c6_response_mapping (hashMatches : List Nat → List Nat → Bool) (db : DB)
    (req : SigninRequest) (t : Telemetry) :
    (signinHandler hashMatches db req t).1 =
      (if req.id = "" then httpError "Missing user ID" 400
       else
        match getUserFromDB db req.id with
        | Except.error _ => httpError "Failed to get user" 500
        | Except.ok user =>
          if (compareHashAndPassword hashMatches (user.password.getD []) (utf8Bytes req.password)).isNone
          then { status := 200, body := okBody }
          else httpError "Not authenticated" 401) := by
  by_cases hid : req.id = ""
  · simp [signinHandler, hid]
  · cases hfetch : getUserFromDB db req.id with
    | error e => simp [signinHandler, hid, hfetch]
    | ok user =>
      rw [signinHandler_ok hashMatches db req t user hid hfetch]
      simp [hid, hfetch]

/-- C7, as stated, fails on the code in its second half: a decode failure
does surface as a fetch error (see c7_decode_failure), but a record the
fetch hands to the authentication check need not have an absent-or-well-
formed hash — the stored hex string 00 decodes successfully to the single
byte 0, which is structurally invalid for bcrypt. -/
theorem c7_counterexample :
    getUserFromDB { rows := [{ id := 1, name := "a", email := "a@x", passwordHex := some "00" }], fail := false } "1"
      = Except.ok { ID := 1, Name := "a", Email := "a@x", password := some [0] }
    ∧ specMalformedHash [0] = true := by
  refine ⟨by decide, by decide⟩

/-- C7 (amended): a stored credential whose hex encoding fails to decode is
surfaced by fetch as the decode error and answered HTTP 500 on both paths —
never a mismatch or a silent authentication failure; but successful hex
decoding does not guarantee bcrypt well-formedness, so a fetched record may
still carry a present, structurally invalid hash (handled by the 401 path). -/
theorem c7_decode_failure (hashMatches : List Nat → List Nat → Bool) (db : DB)
    (s p : String) (n : Int) (row : UserRow) (hx : String) (t : Telemetry)
    (hp : goAtoi s = some n) (hdb : db.fail = false)
    (hfind : db.rows.find? (fun r => r.id == n) = some row)
    (hpw : row.passwordHex = some hx)
    (hdec : hexDecode (hx.toList.map Char.toNat) = none) :
    getUserFromDB db s = Except.error FetchError.hexDecodeError
    ∧ getUserHandler db { id := s } = httpError "Failed to get user" 500
    ∧ (signinHandler hashMatches db { id := s, password := p } t).1 = httpError "Failed to get user" 500
    ∧ (signinHandler hashMatches db { id := s, password := p } t).2 = t := by
  have hs : ¬ s = "" := by
    intro h
    rw [h] at hp
    have hnone : goAtoi "" = none := rfl
    rw [hnone] at hp
    exact Option.noConfusion hp
  have hdec' : hexDecode (List.map Char.toNat hx.data) = none := hdec
  have hfetch : getUserFromDB db s = Except.error FetchError.hexDecodeError := by
    simp [getUserFromDB, hp, hdb, hfind, hpw, hdec']
  refine ⟨hfetch, by simp [getUserHandler, hs, hfetch], ?_, ?_⟩ <;>
    simp [signinHandler, hs, hfetch]

/-- C7 witness: concrete application of c7_decode_failure to a record whose
password column holds the non-hex string 0z. -/
theorem c7_decode_failure_witness :
    getUserFromDB { rows := [{ id := 1, name := "a", email := "a@x", passwordHex := some "0z" }], fail := false } "1"
      = Except.error FetchError.hexDecodeError
    ∧ getUserHandler { rows := [{ id := 1, name := "a", email := "a@x", passwordHex := some "0z" }], fail := false } { id := "1" }
      = httpError "Failed to get user" 500
    ∧ (signinHandler (fun _ _ => false)
        { rows := [{ id := 1, name := "a", email := "a@x", passwordHex := some "0z" }], fail := false }
        { id := "1", password := "p" } telemetry0).1 = httpError "Failed to get user" 500
    ∧ (signinHandler (fun _ _ => false)
        { rows := [{ id := 1, name := "a", email := "a@x", passwordHex := some "0z" }], fail := false }
        { id := "1", password := "p" } telemetry0).2 = telemetry0 :=
  c7_decode_failure (fun _ _ => false)
    { rows := [{ id := 1, name := "a", email := "a@x", passwordHex := some "0z" }], fail := false }
    "1" "p" 1 { id := 1, name := "a", email := "a@x", passwordHex := some "0z" } "0z" telemetry0
    (by decide) (by decide) (by decide) (by decide) (by decide)

/-- C8 (confirmed): any observation on the latency histogram after a signin
request either was already there or is the single-attribute list correct
mapped to a boolean — its key set is exactly the string correct, so it never
contains the user identifier field. -/
theorem c8_latency_attributes (hashMatches : List Nat → List Nat → Bool) (db : DB)
    (req : SigninRequest) (t : Telemetry) (obs : List (String × AttrVal))
    (hobs : obs ∈ (signinHandler hashMatches db req t).2.hashLatencyObs) :
    obs ∈ t.hashLatencyObs
    ∨ (obs.map Prod.fst = ["correct"] ∧ ∃ b : Bool, obs = [("correct", AttrVal.boolVal b)]) := by
  by_cases hid : req.id = ""
  · left
    simpa [signinHandler, hid] using hobs
  · cases hfetch : getUserFromDB db req.id with
    | error e =>
      left
      simpa [signinHandler, hid, hfetch] using hobs
    | ok user =>
      rw [signinHandler_ok hashMatches db req t user hid hfetch] at hobs
      rcases List.mem_append.mp hobs with h | h
      · exact Or.inl h
      · right
        have hval := List.mem_singleton.mp h
        subst hval
        exact ⟨rfl, _, rfl⟩

/-- C8 witness: concrete application of c8_latency_attributes to the one
observation a concrete signin request (absent stored hash) records. -/
theorem c8_latency_attributes_witness :
    [("correct", AttrVal.boolVal false)] ∈ telemetry0.hashLatencyObs
    ∨ ([("correct", AttrVal.boolVal false)].map Prod.fst = ["correct"]
        ∧ ∃ b : Bool, [("correct", AttrVal.boolVal false)] = [("correct", AttrVal.boolVal b)]) :=
  c8_latency_attributes (fun _ _ => false)
    { rows := [{ id := 1, name := "a", email := "a@x", passwordHex := none }], fail := false }
    { id := "1", password := "pw" } telemetry0 [("correct", AttrVal.boolVal false)]
    (by decide)

/-- C9 (confirmed): a successful GET /user answers 200 with a body built
from the id, name and email fields alone (the unexported password field is
skipped by encoding/json), and any two User records that agree on those
three fields — in particular two differing only in their credential hash —
produce identical response bodies. -/
theorem c9_hash_never_serialized (db : DB) (req : GetUserRequest) (user : User)
    (hid : ¬ req.id = "") (hfetch : getUserFromDB db req.id = Except.ok user) :
    getUserHandler db req = { status := 200, body := jsonUserBody user.ID user.Name user.Email }
    ∧ ∀ u1 u2 : User, u1.ID = u2.ID → u1.Name = u2.Name → u1.Email = u2.Email →
        jsonEncodeUser u1 = jsonEncodeUser u2 := by
  constructor
  · simp [getUserHandler, hid, hfetch, jsonEncodeUser]
  · intro u1 u2 h1 h2 h3
    simp [jsonEncodeUser, jsonUserBody, h1, h2, h3]

/-- C9 witness: concrete application of c9_hash_never_serialized; the two
records differing only in the stored hash encode to the same body. -/
theorem c9_hash_never_serialized_witness :
    getUserHandler { rows := [{ id := 1, name := "a", email := "a@x", passwordHex := some "00" }], fail := false } { id := "1" }
      = { status := 200, body := jsonUserBody 1 "a" "a@x" }
    ∧ ∀ u1 u2 : User, u1.ID = u2.ID → u1.Name = u2.Name → u1.Email = u2.Email →
        jsonEncodeUser u1 = jsonEncodeUser u2 :=
  c9_hash_never_serialized
    { rows := [{ id := 1, name := "a", email := "a@x", passwordHex := some "00" }], fail := false }
    { id := "1" } { ID := 1, Name := "a", Email := "a@x", password := some [0] }
    (by decide) (by decide)

/-- C10 (confirmed): when the signin lookup path fails — missing id, or any
fetch error (non-parseable id, not found, store failure, decode failure) —
the telemetry state is returned unchanged: no latency observation, no error
counter increment, no password_check span; so the instruments are touched
only on requests where the lookup returned a record. -/
theorem c10_lookup_failure_frame (hashMatches : List Nat → List Nat → Bool) (db : DB)
    (req : SigninRequest) (t : Telemetry)
    (h : req.id = "" ∨ ∃ e, getUserFromDB db req.id = Except.error e) :
    (signinHandler hashMatches db req t).2 = t := by
  rcases h with h | ⟨e, he⟩
  · simp [signinHandler, h]
  · by_cases hid : req.id = ""
    · simp [signinHandler, hid]
    · simp [signinHandler, hid, he]

/-- C10 witness: concrete application of c10_lookup_failure_frame to a
request with the id field missing. -/
theorem c10_lookup_failure_frame_witness :
    (signinHandler (fun _ _ => false) { rows := [], fail := false }
        { id := "", password := "p" } telemetry0).2 = telemetry0 :=
  c10_lookup_failure_frame (fun _ _ => false) { rows := [], fail := false }
    { id := "", password := "p" } telemetry0 (Or.inl rfl)

end MeasuringGo
